import Mathlib

/-!
# KidMail Protector — verification of the content filter, scan pipeline and
# provider connection pool

Shallow embedding of the server-side logic of the KidMail Protector
repository:

* `src/server/content-filter.ts` — the layered content classifier
  (`ContentFilter.checkContent`, `addCustomFilter`, `loadCustomFilters`);
* `src/server/storage.ts` — `MemStorage.isEmailTrusted`,
  `MemStorage.getJunkMailPreferences`, `MemStorage.createFilterRule`, and the
  per-message loop of `EmailService.checkAndForward`;
* `src/server/providers/provider-manager.ts` — the bounded connection pool
  (`EmailProviderManager`);
* `src/server/providers/provider-factory.ts` — the per-type provider cache;
* `src/server/providers/oauth-service.ts` — `OAuthService.generateStateParam`;
* `src/server/email-service.ts` — the legacy iCloud-only pipeline.

Modelling conventions:

* JavaScript strings are Lean `String`s; `toLowerCase`, `includes` and `trim`
  are re-implemented over `List Char` so they evaluate inside the kernel
  (`jsLower`, `jsIncludes`, `jsTrim`).  `toLowerCase` is modelled on ASCII,
  which covers every string the repository compares.
* `x || dflt` on possibly-absent strings is `jsStrOr` (the empty string is
  falsy in JavaScript).
* JavaScript regular expressions are external to the repository; a regex
  engine is passed in as a function `rtest : String → String → Bool`
  (`rtest p t` models `new RegExp(p, 'i').test(t)`) and pattern compilation
  as `rcompiles : String → Bool` (`new RegExp(p, 'i')` succeeds).
* `async`/`await` code that the orchestrator awaits properly is modelled as
  plain state-passing functions; network outcomes (connect, send) are Boolean
  parameters.
-/

namespace KidMail

/-! ## JavaScript string helpers -/

/-- ASCII case folding, modelling `String.prototype.toLowerCase` on the
ASCII strings the repository uses. -/
def lowerChar (c : Char) : Char :=
  match c with
  | 'A' => 'a' | 'B' => 'b' | 'C' => 'c' | 'D' => 'd' | 'E' => 'e' | 'F' => 'f'
  | 'G' => 'g' | 'H' => 'h' | 'I' => 'i' | 'J' => 'j' | 'K' => 'k' | 'L' => 'l'
  | 'M' => 'm' | 'N' => 'n' | 'O' => 'o' | 'P' => 'p' | 'Q' => 'q' | 'R' => 'r'
  | 'S' => 's' | 'T' => 't' | 'U' => 'u' | 'V' => 'v' | 'W' => 'w' | 'X' => 'x'
  | 'Y' => 'y' | 'Z' => 'z'
  | _ => c

/-- `s.toLowerCase()`. -/
def jsLower (s : String) : String := ⟨s.data.map lowerChar⟩

/-- Does `pat` occur at the head of `s`? -/
def subAt : List Char → List Char → Bool
  | [], _ => true
  | _ :: _, [] => false
  | a :: as, b :: bs => a == b && subAt as bs

/-- Does `pat` occur anywhere in `s`? -/
def hasSubList (pat : List Char) (s : List Char) : Bool :=
  subAt pat s ||
    match s with
    | [] => false
    | _ :: t => hasSubList pat t

/-- `s.includes(pat)`. -/
def jsIncludes (s pat : String) : Bool := hasSubList pat.data s.data

def wsChar (c : Char) : Bool := c == ' ' || c == '\t' || c == '\n' || c == '\r'

/-- `s.trim()`. -/
def jsTrim (s : String) : String :=
  ⟨((s.data.dropWhile wsChar).reverse.dropWhile wsChar).reverse⟩

/-- `x || dflt` for an optional string: `undefined`, `null` and `""` are all
falsy in JavaScript, so they fall through to the default. -/
def jsStrOr (x : Option String) (dflt : String) : String :=
  match x with
  | none => dflt
  | some s => if s == "" then dflt else s

/-- A single-quote character, used by the HTML `alt=` heuristic. -/
def sq : String := String.singleton (Char.ofNat 39)

/-! ## Data model (`shared/schema.ts`) -/

/-- A trusted-sender record: `(user, optional account scope, email address)`.
`child_account_id = none` models the SQL `NULL` (global for the user). -/
structure TrustedSender where
  user_id : Nat
  child_account_id : Option Nat
  email_address : String
deriving DecidableEq, Repr

/-- A filter rule as persisted by `MemStorage.createFilterRule`. -/
structure FilterRule where
  user_id : Nat
  child_account_id : Option Nat := none
  rule_text : String
  is_regex : Bool := false
deriving DecidableEq, Repr

/-- Per-account (or global-for-user) junk-mail preference flags. -/
structure JunkMailPreferences where
  user_id : Nat
  child_account_id : Option Nat
  keep_newsletters : Bool := false
  keep_receipts : Bool := false
  keep_social_media : Bool := false
  auto_delete_all : Bool := true
deriving DecidableEq, Repr

/-- An activity-log entry as produced by `createActivityLog`. -/
structure ActivityLogEntry where
  user_id : Nat
  child_account_id : Option Nat
  activity_type : String
  details : String
  sender_email : Option String := none
deriving DecidableEq, Repr

/-! ## `MemStorage.isEmailTrusted` (`src/server/storage.ts:770`) -/

/-- One trusted-sender record matches a query, mirroring the body of the
`some` callback in `isEmailTrusted`: wrong user → `false`; an account-scoped
record with a different account (when a `childAccountId` was supplied) →
`false`; otherwise compare lower-cased addresses. -/
def trustedSenderMatches (sender : TrustedSender) (normalizedEmail : String)
    (userId : Nat) (childAccountId : Option Nat) : Bool :=
  if sender.user_id ≠ userId then false
  else if childAccountId.isSome && sender.child_account_id.isSome &&
      sender.child_account_id ≠ childAccountId then false
  else jsLower sender.email_address == normalizedEmail

/-- `MemStorage.isEmailTrusted(email, userId, childAccountId?)`. -/
def isEmailTrusted (senders : List TrustedSender) (email : String)
    (userId : Nat) (childAccountId : Option Nat) : Bool :=
  let normalizedEmail := jsTrim (jsLower email)
  senders.any (fun s => trustedSenderMatches s normalizedEmail userId childAccountId)

/-! ## `MemStorage.getJunkMailPreferences` (`src/server/storage.ts:794`) -/

/-- `MemStorage.getJunkMailPreferences(userId, childAccountId?)`: `find` over
the stored records.  When a `childAccountId` is supplied, the record is kept
only if `prefs.child_account_id !== childAccountId` is false, i.e. only an
*exact* account match survives — a `NULL`-scoped record never equals a
number. -/
def getJunkMailPreferences (prefsList : List JunkMailPreferences)
    (userId : Nat) (childAccountId : Option Nat) : Option JunkMailPreferences :=
  prefsList.find? (fun prefs =>
    if prefs.user_id ≠ userId then false
    else
      match childAccountId with
      | none => true
      | some a => prefs.child_account_id == some a)

/-! ## `MemStorage.createFilterRule` (`src/server/storage.ts:642`) -/

/-- The filter-rule table slice of the store. -/
structure StorageState where
  filterRules : List FilterRule := []
deriving DecidableEq, Repr

/-- `MemStorage.createFilterRule`: appends the record (id bookkeeping
elided). -/
def createFilterRule (store : StorageState) (rule : FilterRule) : StorageState :=
  { store with filterRules := store.filterRules ++ [rule] }

/-! ## `ContentFilter` (`src/server/content-filter.ts`) -/

/-- The default literal keyword list, verbatim from `ContentFilter`. -/
def defaultFilters : List String :=
  ["viagra", "cialis", "adult content", "xxx",
   "casino", "gambling", "lottery", "bet",
   "penis", "enlargement", "breast", "sex",
   "dating", "hookup", "one night", "prostitute",
   "porn", "porno", "pornography", "nude",
   "naked", "sexy single", "hot girl", "webcam",
   "prescription", "medication", "pharmacy",
   "loan", "credit", "debt", "mortgage", "refinance",
   "weight loss", "diet pill", "slim", "burn fat"]

/-- The default regex list, as pattern sources (each is compiled with the
`i` flag in the source: `/\bsex\b/i` has source `\bsex\b`). -/
def defaultRegexFilters : List String :=
  ["\\bsex\\b", "\\bcasino\\b", "\\bxxx\\b", "\\bporn\\b", "\\bgambling\\b"]

/-- The `alt=`-attribute keywords of the HTML heuristic. -/
def adultImageKeywords : List String := ["nude", "naked", "xxx", "porn", "adult"]

/-- The classifier verdict. -/
structure FilterResult where
  isInappropriate : Bool
  reason : String
deriving DecidableEq, Repr

/-- The in-memory per-user rule maps of `ContentFilter` (`customFilters` and
`customRegexFilters`), keyed by user id.  Literal rules are stored
lower-cased; regex rules are stored as their pattern sources. -/
structure FilterState where
  customFilters : List (Nat × List String) := []
  customRegexFilters : List (Nat × List String) := []
deriving DecidableEq, Repr

/-- `map.get(userId) || []`. -/
def lookupOrNil (m : List (Nat × List String)) (userId : Nat) : List String :=
  (m.lookup userId).getD []

/-- `map.set(userId, v)`: replace the binding if present, else append. -/
def mapSet (m : List (Nat × List String)) (userId : Nat) (v : List String) :
    List (Nat × List String) :=
  if (m.lookup userId).isSome then
    m.map (fun p => if p.1 = userId then (userId, v) else p)
  else m ++ [(userId, v)]

/-- `ContentFilter.checkContent`, translated branch-for-branch from
`src/server/content-filter.ts:80-160`.  `rtest p t` models
`new RegExp(p, 'i').test(t)`.  The guard `userId !== undefined &&
senderEmail` makes the trusted-sender check run only when a user id is given
and the sender string is truthy (non-empty). -/
def checkContent (rtest : String → String → Bool) (senders : List TrustedSender)
    (fs : FilterState) (subject textContent htmlContent : String)
    (userId : Option Nat) (senderEmail : Option String)
    (childAccountId : Option Nat) : FilterResult :=
  let trustedHit : Bool :=
    match userId, senderEmail with
    | some uid, some se => !(se == "") && isEmailTrusted senders se uid childAccountId
    | _, _ => false
  if trustedHit then { isInappropriate := false, reason := "Sender is trusted" }
  else
    let allText := jsLower (subject ++ " " ++ textContent)
    match defaultFilters.find? (fun f => jsIncludes allText (jsLower f)) with
    | some f => { isInappropriate := true, reason := "Contains blocked term: " ++ f }
    | none =>
      match defaultRegexFilters.find? (fun p => rtest p allText) with
      | some p => { isInappropriate := true, reason := "Matches blocked pattern: " ++ p }
      | none =>
        let customHit : Option FilterResult :=
          match userId with
          | some uid =>
            match (lookupOrNil fs.customFilters uid).find? (fun f => jsIncludes allText f) with
            | some f => some { isInappropriate := true, reason := "Contains custom blocked term: " ++ f }
            | none =>
              match (lookupOrNil fs.customRegexFilters uid).find? (fun p => rtest p allText) with
              | some p => some { isInappropriate := true, reason := "Matches custom blocked pattern: " ++ p }
              | none => none
          | none => none
        match customHit with
        | some r => r
        | none =>
          if !(htmlContent == "") then
            let lowerHtml := jsLower htmlContent
            match adultImageKeywords.find? (fun k =>
                jsIncludes lowerHtml ("alt=\"" ++ k ++ "\"") ||
                jsIncludes lowerHtml ("alt=" ++ sq ++ k ++ sq)) with
            | some k =>
                { isInappropriate := true
                  reason := "Contains potentially inappropriate image (" ++ k ++ ")" }
            | none => { isInappropriate := false, reason := "" }
          else { isInappropriate := false, reason := "" }

/-- `ContentFilter.addCustomFilter` (`src/server/content-filter.ts:162-191`)
as a transformer of `(storage, in-memory filters)`.  The database write
(`storage.createFilterRule`) happens *before* the regex is compiled; an
invalid regex then throws (`Except.error`), leaving the persisted rule
behind and the in-memory maps untouched. -/
def addCustomFilter (rcompiles : String → Bool) (store : StorageState)
    (fs : FilterState) (userId : Nat) (filterText : String) (isRegex : Bool) :
    Except String (Unit) × StorageState × FilterState :=
  let store' := createFilterRule store
    { user_id := userId, rule_text := filterText, is_regex := isRegex }
  if isRegex then
    if rcompiles filterText then
      let userRegexFilters := lookupOrNil fs.customRegexFilters userId
      (Except.ok (),
       store',
       { fs with customRegexFilters := mapSet fs.customRegexFilters userId (userRegexFilters ++ [filterText]) })
    else
      (Except.error ("Invalid regex pattern: " ++ filterText), store', fs)
  else
    let userFilters := lookupOrNil fs.customFilters userId
    (Except.ok (),
     store',
     { fs with customFilters := mapSet fs.customFilters userId (userFilters ++ [jsLower filterText]) })

/-- The inner `rules.forEach` of `ContentFilter.loadCustomFilters`
(`src/server/content-filter.ts:52-72`): fold one user's rules into the
`(textFilters, regexFilters)` pair; a regex whose pattern does not compile is
logged and skipped, and the remaining rules are still processed. -/
def buildUserFilters (rcompiles : String → Bool)
    (rules : List FilterRule) : List String × List String :=
  rules.foldl
    (fun acc rule =>
      if rule.is_regex then
        if rcompiles rule.rule_text then (acc.1, acc.2 ++ [rule.rule_text])
        else acc
      else (acc.1 ++ [jsLower rule.rule_text], acc.2))
    ([], [])

/-! ## Spec-side layered view of the classifier

The specification (§4.1) describes `checkContent` as a fixed sequence of
layers with first-match-wins short-circuiting.  The following definitions
follow the spec's words; `checkContentLayered` is compared with the
source-shaped `checkContent` in the C5 theorem. -/

/-- Layer 1: trusted sender (requires a user id and a truthy sender). -/
def trustedLayer (senders : List TrustedSender) (userId : Option Nat)
    (senderEmail : Option String) (childAccountId : Option Nat) : Option FilterResult :=
  match userId, senderEmail with
  | some uid, some se =>
      if !(se == "") && isEmailTrusted senders se uid childAccountId then
        some { isInappropriate := false, reason := "Sender is trusted" }
      else none
  | _, _ => none

/-- Layer 2: default literal keywords over the combined lower-cased text. -/
def defaultKeywordLayer (allText : String) : Option FilterResult :=
  (defaultFilters.find? (fun f => jsIncludes allText (jsLower f))).map
    (fun f => { isInappropriate := true, reason := "Contains blocked term: " ++ f })

/-- Layer 3: default regex patterns over the same combined text. -/
def defaultRegexLayer (rtest : String → String → Bool) (allText : String) :
    Option FilterResult :=
  (defaultRegexFilters.find? (fun p => rtest p allText)).map
    (fun p => { isInappropriate := true, reason := "Matches blocked pattern: " ++ p })

/-- Layer 4: the user's custom literal rules (skipped without a user id). -/
def customKeywordLayer (fs : FilterState) (userId : Option Nat)
    (allText : String) : Option FilterResult :=
  match userId with
  | some uid =>
      ((lookupOrNil fs.customFilters uid).find? (fun f => jsIncludes allText f)).map
        (fun f => { isInappropriate := true, reason := "Contains custom blocked term: " ++ f })
  | none => none

/-- Layer 5: the user's custom regex rules (skipped without a user id). -/
def customRegexLayer (rtest : String → String → Bool) (fs : FilterState)
    (userId : Option Nat) (allText : String) : Option FilterResult :=
  match userId with
  | some uid =>
      ((lookupOrNil fs.customRegexFilters uid).find? (fun p => rtest p allText)).map
        (fun p => { isInappropriate := true, reason := "Matches custom blocked pattern: " ++ p })
  | none => none

/-- Layer 6: the `alt="<keyword>"` HTML heuristic — the only layer that sees
the HTML body. -/
def altTextLayer (htmlContent : String) : Option FilterResult :=
  if !(htmlContent == "") then
    (adultImageKeywords.find? (fun k =>
        jsIncludes (jsLower htmlContent) ("alt=\"" ++ k ++ "\"") ||
        jsIncludes (jsLower htmlContent) ("alt=" ++ sq ++ k ++ sq))).map
      (fun k => { isInappropriate := true
                  reason := "Contains potentially inappropriate image (" ++ k ++ ")" })
  else none

/-- The classifier as the spec states it: the six layers in order, first
match wins, defaulting to not-inappropriate; the keyword/regex layers all
read the lower-cased `subject + " " + bodyText`. -/
def checkContentLayered (rtest : String → String → Bool)
    (senders : List TrustedSender) (fs : FilterState)
    (subject textContent htmlContent : String) (userId : Option Nat)
    (senderEmail : Option String) (childAccountId : Option Nat) : FilterResult :=
  let allText := jsLower (subject ++ " " ++ textContent)
  (([trustedLayer senders userId senderEmail childAccountId,
     defaultKeywordLayer allText,
     defaultRegexLayer rtest allText,
     customKeywordLayer fs userId allText,
     customRegexLayer rtest fs userId allText,
     altTextLayer htmlContent].findSome? id)).getD
    { isInappropriate := false, reason := "" }

/-! ## The per-message loop of `EmailService.checkAndForward`
(`src/server/storage.ts:1435-1580`) -/

/-- A fetched message as consumed by the loop.  Header fields can be absent;
the loop applies `|| default` to each.  `from` is a Lean keyword, hence
`from_`. -/
structure EmailMessage where
  id : String
  from_ : Option String := none
  subject : Option String := none
  text : Option String := none
  html : Option String := none
deriving DecidableEq, Repr

/-- What one tick accumulates: the delete queue, ids marked read, activity
log entries (in order), and the senders of forwarded messages. -/
structure TickResult where
  toDelete : List String := []
  markedRead : List String := []
  logs : List ActivityLogEntry := []
  forwards : List String := []
deriving DecidableEq, Repr

/-- The `shouldKeep` / `keepReason` computation of the loop: three
sequential `if`s, each overwriting the reason (so the *last* matching
heuristic names the reason, while `shouldKeep` is their disjunction). -/
def keepDecision (junkPreferences : Option JunkMailPreferences)
    (fromAddress subject textContent : String) : Bool × String :=
  match junkPreferences with
  | none => (false, "")
  | some jp =>
      let s1 :=
        if jp.keep_newsletters &&
            (jsIncludes (jsLower subject) "newsletter" ||
             jsIncludes (jsLower textContent) "newsletter" ||
             jsIncludes (jsLower textContent) "subscribe" ||
             jsIncludes (jsLower textContent) "unsubscribe") then
          (true, "newsletter")
        else (false, "")
      let s2 :=
        if jp.keep_receipts &&
            (jsIncludes (jsLower subject) "receipt" ||
             jsIncludes (jsLower subject) "order" ||
             jsIncludes (jsLower subject) "confirmation" ||
             jsIncludes (jsLower subject) "invoice") then
          (true, "receipt/order")
        else s1
      if jp.keep_social_media &&
          (jsIncludes (jsLower fromAddress) "facebook" ||
           jsIncludes (jsLower fromAddress) "instagram" ||
           jsIncludes (jsLower fromAddress) "twitter" ||
           jsIncludes (jsLower fromAddress) "linkedin" ||
           jsIncludes (jsLower fromAddress) "tiktok") then
        (true, "social media")
      else s2

/-- Process one message of the tick, returning its contribution to the tick
result.  `sendOk` is the outcome of `provider.sendMail` inside
`forwardEmail`: on `false`, `forwardEmail` throws, the per-message
`try/catch` swallows the error, and the `filter_match` log entry is skipped —
but the id was already pushed onto the delete queue.  The trusted branch
logs and `continue`s without calling `markAsRead`. -/
def processOneMessage (rtest : String → String → Bool)
    (senders : List TrustedSender) (fs : FilterState)
    (junkPreferences : Option JunkMailPreferences)
    (userId accountId : Nat) (sendOk : Bool) (m : EmailMessage) : TickResult :=
  let fromAddress := jsStrOr m.from_ "Unknown Sender"
  let subject := jsStrOr m.subject "No Subject"
  let textContent := jsStrOr m.text ""
  let htmlContent := jsStrOr m.html ""
  if isEmailTrusted senders fromAddress userId (some accountId) then
    { logs := [{ user_id := userId, child_account_id := some accountId,
                 activity_type := "trusted_sender",
                 details := "Kept email from trusted sender: " ++ fromAddress,
                 sender_email := some fromAddress }] }
  else
    let keep := keepDecision junkPreferences fromAddress subject textContent
    if keep.1 then
      { markedRead := [m.id]
        logs := [{ user_id := userId, child_account_id := some accountId,
                   activity_type := "kept",
                   details := "Kept junk email (" ++ keep.2 ++ "): " ++ subject,
                   sender_email := some fromAddress }] }
    else
      let filterResult := checkContent rtest senders fs subject textContent htmlContent
        (some userId) (some fromAddress) (some accountId)
      if filterResult.isInappropriate then
        if sendOk then
          { toDelete := [m.id]
            forwards := [fromAddress]
            logs := [{ user_id := userId, child_account_id := some accountId,
                       activity_type := "forward",
                       details := "Email forwarded to the parent address",
                       sender_email := some fromAddress },
                     { user_id := userId, child_account_id := some accountId,
                       activity_type := "filter_match",
                       details := "Inappropriate email detected: " ++ filterResult.reason,
                       sender_email := some fromAddress }] }
        else
          { toDelete := [m.id] }
      else
        match junkPreferences with
        | some jp =>
            if jp.auto_delete_all then
              { toDelete := [m.id]
                logs := [{ user_id := userId, child_account_id := some accountId,
                           activity_type := "deleted",
                           details := "Deleted junk email with subject: " ++ subject,
                           sender_email := some fromAddress }] }
            else {}
        | none => {}

/-- Concatenation of tick results, in message order. -/
def TickResult.append (a b : TickResult) : TickResult :=
  { toDelete := a.toDelete ++ b.toDelete
    markedRead := a.markedRead ++ b.markedRead
    logs := a.logs ++ b.logs
    forwards := a.forwards ++ b.forwards }

/-- The `for (const message of messages)` loop of `checkAndForward`. -/
def processMessages (rtest : String → String → Bool)
    (senders : List TrustedSender) (fs : FilterState)
    (junkPreferences : Option JunkMailPreferences)
    (userId accountId : Nat) (sendOk : Bool) :
    List EmailMessage → TickResult
  | [] => {}
  | m :: rest =>
      TickResult.append
        (processOneMessage rtest senders fs junkPreferences userId accountId sendOk m)
        (processMessages rtest senders fs junkPreferences userId accountId sendOk rest)

/-! ## Provider factory and connection pool
(`src/server/providers/provider-factory.ts`,
`src/server/providers/provider-manager.ts`)

Provider instances are JavaScript objects with identity; the embedding gives
them identity through a heap: `ManagerState.heap` maps an instance
reference (`Nat`) to the mutable `BaseEmailProvider` fields, and both the
factory cache and the pool entries store references. -/

inductive ProviderType where
  | icloud | gmail | outlook | yahoo | aol | protonmail | zoho | other
deriving DecidableEq, Repr

/-- The `switch` of `EmailProviderFactory.getProvider`: which concrete class
is instantiated for a provider type (unimplemented types fall back to the
iCloud provider). -/
def providerClassFor (t : ProviderType) : String :=
  match t with
  | ProviderType.icloud => "ICloudProvider"
  | ProviderType.gmail => "GmailProvider"
  | ProviderType.outlook => "OutlookProvider"
  | _ => "ICloudProvider"

/-- The auth block of `ConnectionOptions` as filled in by
`EmailProviderManager.connectProvider`. -/
structure AuthBlock where
  type : String
  value : String := ""
  accessToken : Option String := none
  refreshToken : Option String := none
  expiry : Option Nat := none
deriving DecidableEq, Repr

/-- `ConnectionOptions` (`provider-interface.ts`). -/
structure ConnectionOptions where
  host : String
  port : Nat
  secure : Bool
  user : String
  auth : AuthBlock
deriving DecidableEq, Repr

/-- The mutable state of one provider instance (`BaseEmailProvider`):
its class, `connectionState`, and the `connectionOptions` stored by
`connect`. -/
structure ProviderObj where
  cls : String
  connectionState : Bool := false
  connectionOptions : Option ConnectionOptions := none
deriving DecidableEq, Repr

/-- `ConnectionPoolEntry` (`provider-manager.ts:11-18`); `provider` is a
heap reference.  Timestamps are milliseconds (`Date.getTime()`). -/
structure PoolEntry where
  providerRef : Nat
  accountId : Nat
  providerType : ProviderType
  lastUsed : Nat
  isConnected : Bool
  connectionError : Option String := none
deriving DecidableEq, Repr

/-- A child account as read by the manager (`account.provider`,
`account.auth_method`, credential fields). -/
structure ChildAccount where
  id : Nat
  user_id : Nat
  email : String
  provider : Option ProviderType := none
  auth_method : String
  password : Option String := none
  app_password : Option String := none
  oauth_token : Option String := none
  oauth_refresh_token : Option String := none
  token_expiry : Option Nat := none
deriving DecidableEq, Repr

/-- The slice of an `EmailProvider` settings record the manager reads. -/
structure EmailProviderSettings where
  provider_type : ProviderType
  imap_host : String
  imap_port : Nat
  imap_secure : Bool
deriving DecidableEq, Repr

/-- `EmailProviderManager` state: the heap of provider instances, the
factory's static per-type instance cache, and the connection pool (a map
keyed by account id, kept in insertion order like a JS `Map`). -/
structure ManagerState where
  heap : List (Nat × ProviderObj) := []
  nextRef : Nat := 0
  factoryCache : List (ProviderType × Nat) := []
  pool : List PoolEntry := []
deriving DecidableEq, Repr

/-- `maxPoolSize` (`provider-manager.ts:32`). -/
def maxPoolSize : Nat := 20

/-- `idleTimeout` in milliseconds (`provider-manager.ts:34`). -/
def idleTimeout : Nat := 5 * 60 * 1000

def heapGet (heap : List (Nat × ProviderObj)) (ref : Nat) : Option ProviderObj :=
  heap.lookup ref

def heapSet (heap : List (Nat × ProviderObj)) (ref : Nat) (obj : ProviderObj) :
    List (Nat × ProviderObj) :=
  heap.map (fun p => (p.1, if p.1 = ref then obj else p.2))

def poolLookup (pool : List PoolEntry) (accountId : Nat) : Option PoolEntry :=
  pool.find? (fun e => e.accountId == accountId)

/-- JS `Map.set`: overwrite in place if the key exists, else append. -/
def poolSet (pool : List PoolEntry) (e : PoolEntry) : List PoolEntry :=
  if (poolLookup pool e.accountId).isSome then
    pool.map (fun x => if x.accountId = e.accountId then e else x)
  else pool ++ [e]

/-- `EmailProviderFactory.getProvider`: return the cached instance for the
type if present, otherwise instantiate (per the `switch`), cache and return
it. -/
def getProvider (st : ManagerState) (t : ProviderType) : Nat × ManagerState :=
  match st.factoryCache.lookup t with
  | some ref => (ref, st)
  | none =>
      let ref := st.nextRef
      (ref,
       { st with
          heap := st.heap ++ [(ref, { cls := providerClassFor t })]
          nextRef := ref + 1
          factoryCache := st.factoryCache ++ [(t, ref)] })

/-- The `connectionOptions` built by `EmailProviderManager.connectProvider`
(`provider-manager.ts:201-231`); `none` when the auth method is unsupported
(the `default:` case returns `false` before any connect attempt). -/
def buildConnectionOptions (settings : EmailProviderSettings)
    (account : ChildAccount) (now : Nat) : Option ConnectionOptions :=
  let base : AuthBlock → ConnectionOptions := fun auth =>
    { host := settings.imap_host, port := settings.imap_port,
      secure := settings.imap_secure, user := account.email, auth := auth }
  match account.auth_method with
  | "password" => some (base { type := "password", value := jsStrOr account.password "" })
  | "app_password" => some (base { type := "app_password", value := jsStrOr account.app_password "" })
  | "oauth2" => some (base
      { type := "oauth2", value := ""
        accessToken := some (jsStrOr account.oauth_token "")
        refreshToken := some (jsStrOr account.oauth_refresh_token "")
        expiry := some (account.token_expiry.getD now) })
  | _ => none

/-- `EmailProviderManager.connectProvider`: look up settings for the
account's provider type (`|| 'icloud'`), build options, and run
`provider.connect(options)` raced against the timeout.  `ok` is the resolved
outcome of that race.  The provider implementations store the options first
and then set their connection state, so on any attempted connect the heap
object holds the new options and `connectionState = ok`.  With missing
settings or an unsupported auth method the function returns `false` without
touching the provider. -/
def connectProvider (settingsMap : List (ProviderType × EmailProviderSettings))
    (account : ChildAccount) (now : Nat) (ok : Bool) (st : ManagerState)
    (ref : Nat) : Bool × ManagerState :=
  let providerType := account.provider.getD ProviderType.icloud
  match settingsMap.lookup providerType with
  | none => (false, st)
  | some settings =>
      match buildConnectionOptions settings account now with
      | none => (false, st)
      | some opts =>
          match heapGet st.heap ref with
          | none => (false, st)
          | some obj =>
              let obj' : ProviderObj :=
                { obj with connectionState := ok, connectionOptions := some opts }
              (ok, { st with heap := heapSet st.heap ref obj' })

/-- `EmailProviderManager.disconnectProvider`: if the entry is connected,
`provider.disconnect()` (which clears the instance's connection state), mark
it disconnected, and in any case remove the entry from the pool. -/
def disconnectProvider (st : ManagerState) (accountId : Nat) : ManagerState :=
  match poolLookup st.pool accountId with
  | none => st
  | some e =>
      let heap' :=
        if e.isConnected then
          match heapGet st.heap e.providerRef with
          | some obj => heapSet st.heap e.providerRef { obj with connectionState := false }
          | none => st.heap
        else st.heap
      { st with heap := heap', pool := st.pool.filter (fun x => !(x.accountId == accountId)) }

/-- `EmailProviderManager.cleanupIdleConnections`: collect the account ids
whose idle time exceeds `idleTimeout`, then disconnect each. -/
def cleanupIdleConnections (st : ManagerState) (now : Nat) : ManagerState :=
  let idsToDisconnect :=
    (st.pool.filter (fun e => idleTimeout < now - e.lastUsed)).map (fun e => e.accountId)
  idsToDisconnect.foldl (fun s i => disconnectProvider s i) st

/-- The scan of `disconnectLeastRecentlyUsed`: fold over the pool carrying
`(oldestId, oldestTime)`, starting from `(null, Date.now())`; an entry
replaces the candidate only when its `lastUsed` is *strictly* below the
carried time. -/
def lruScan : List PoolEntry → Option Nat × Nat → Option Nat × Nat
  | [], acc => acc
  | e :: rest, acc =>
      if e.lastUsed < acc.2 then lruScan rest (some e.accountId, e.lastUsed)
      else lruScan rest acc

/-- `EmailProviderManager.disconnectLeastRecentlyUsed`. -/
def disconnectLeastRecentlyUsed (st : ManagerState) (now : Nat) : ManagerState :=
  match (lruScan st.pool (none, now)).1 with
  | some oldestId => disconnectProvider st oldestId
  | none => st

/-- `EmailProviderManager.createNewConnection`
(`provider-manager.ts:139-183`): idle eviction if at capacity, then LRU
eviction if still at capacity, then factory lookup, connect, and insertion
of the entry — connected or failed-with-error. -/
def createNewConnection (settingsMap : List (ProviderType × EmailProviderSettings))
    (st : ManagerState) (account : ChildAccount) (now : Nat) (ok : Bool) :
    Option Nat × ManagerState :=
  let st1 := if maxPoolSize ≤ st.pool.length then cleanupIdleConnections st now else st
  let st2 := if maxPoolSize ≤ st1.pool.length then disconnectLeastRecentlyUsed st1 now else st1
  let providerType := account.provider.getD ProviderType.icloud
  let gp := getProvider st2 providerType
  let ref := gp.1
  let st3 := gp.2
  let cp := connectProvider settingsMap account now ok st3 ref
  let connected := cp.1
  let st4 := cp.2
  let okEntry : PoolEntry :=
    { providerRef := ref, accountId := account.id, providerType := providerType,
      lastUsed := now, isConnected := true }
  let failEntry : PoolEntry :=
    { providerRef := ref, accountId := account.id, providerType := providerType,
      lastUsed := now, isConnected := false, connectionError := some "connect failed" }
  if connected then
    (some ref, { st4 with pool := poolSet st4.pool okEntry })
  else
    (none, { st4 with pool := poolSet st4.pool failEntry })

/-- `EmailProviderManager.getProviderForAccount`.  The third component
records whether a network connect attempt was made (`connectProvider`
invoked); a pooled entry marked connected is returned directly with only its
`lastUsed` refreshed. -/
def getProviderForAccount (settingsMap : List (ProviderType × EmailProviderSettings))
    (st : ManagerState) (account : ChildAccount) (now : Nat) (ok : Bool) :
    Option Nat × ManagerState × Bool :=
  match poolLookup st.pool account.id with
  | some entry =>
      let entry1 := { entry with lastUsed := now }
      let st1 := { st with pool := poolSet st.pool entry1 }
      if entry.isConnected then (some entry.providerRef, st1, false)
      else
        let cp := connectProvider settingsMap account now ok st1 entry.providerRef
        let connected := cp.1
        let st2 := cp.2
        let okEntry : PoolEntry := { entry1 with isConnected := true, connectionError := none }
        let failEntry : PoolEntry := { entry1 with connectionError := some "connect failed" }
        if connected then
          (some entry.providerRef, { st2 with pool := poolSet st2.pool okEntry }, true)
        else
          (none, { st2 with pool := poolSet st2.pool failEntry }, true)
  | none =>
      let cnc := createNewConnection settingsMap st account now ok
      (cnc.1, cnc.2, true)

/-- The end of a normal `EmailService.checkAndForward` tick
(`src/server/storage.ts:1583`): `await provider.disconnect()` — the provider
instance clears its own connection state; the pool is not consulted, so the
entry keeps whatever `isConnected` flag it had. -/
def tickEndDisconnect (st : ManagerState) (ref : Nat) : ManagerState :=
  match heapGet st.heap ref with
  | none => st
  | some obj => { st with heap := heapSet st.heap ref { obj with connectionState := false } }

/-! ## `OAuthService.generateStateParam`
(`src/server/providers/oauth-service.ts:220-228`) -/

/-- `b.toString(16).padStart(2, '0')` for a byte. -/
def byteToHexChar (n : Nat) : Char :=
  match n with
  | 0 => '0' | 1 => '1' | 2 => '2' | 3 => '3' | 4 => '4'
  | 5 => '5' | 6 => '6' | 7 => '7' | 8 => '8' | 9 => '9'
  | 10 => 'a' | 11 => 'b' | 12 => 'c' | 13 => 'd' | 14 => 'e'
  | _ => 'f'

def byteToHex (b : Nat) : String :=
  ⟨[byteToHexChar (b / 16 % 16), byteToHexChar (b % 16)]⟩

/-- `OAuthService.generateStateParam`: 16 bytes, each
`Math.floor(Math.random() * 256)`, hex-encoded.  `mathRandomByte i` is the
byte produced by the `i`-th `Math.random()` draw — the output is a pure
function of the `Math.random` stream, which is V8's non-cryptographic
PRNG. -/
def generateStateParam (mathRandomByte : Nat → Nat) : String :=
  String.join ((List.range 16).map (fun i => byteToHex (mathRandomByte i % 256)))

/-! ## The legacy iCloud-only pipeline (`src/server/email-service.ts`)

At `email-service.ts:133` the promise returned by the `async`
`checkContent` is used *without* `await`: `filterResult` is a `Promise`
object, and `filterResult.isInappropriate` is a property access on a
`Promise`, which yields `undefined`. -/

/-- A JavaScript `Promise` wrapping a value (never inspected without
`await`). -/
structure JsPromise (α : Type) where
  val : α
deriving DecidableEq, Repr

/-- Property access `p.isInappropriate` on a `Promise` object: a `Promise`
has no such own property, so the access yields `undefined`. -/
def promiseFieldIsInappropriate (_p : JsPromise FilterResult) : Option Bool :=
  none

/-- JS truthiness of a possibly-`undefined` boolean. -/
def jsTruthy (b : Option Bool) : Bool := b.getD false

/-- One message of the legacy loop (`email-service.ts:127-176`):
`filterResult` is the un-awaited promise, so the `if` always takes the
`else` branch — push the sequence number and log `"deleted"`. -/
def legacyProcessMessage (rtest : String → String → Bool)
    (senders : List TrustedSender) (fs : FilterState) (account_user : Nat)
    (accountId : Nat) (seqno : Nat) (subject text html : Option String)
    (fromText : Option String) : List Nat × List ActivityLogEntry :=
  let filterResult : JsPromise FilterResult :=
    { val := checkContent rtest senders fs (jsStrOr subject "") (jsStrOr text "")
        (jsStrOr html "") (some account_user) none none }
  if jsTruthy (promiseFieldIsInappropriate filterResult) then
    ([seqno],
     [{ user_id := account_user, child_account_id := some accountId,
        activity_type := "filter_match",
        details := "Inappropriate email detected",
        sender_email := some (jsStrOr fromText "Unknown Sender") }])
  else
    ([seqno],
     [{ user_id := account_user, child_account_id := some accountId,
        activity_type := "deleted",
        details := "Deleted junk email with subject: " ++ jsStrOr subject "No Subject",
        sender_email := some (jsStrOr fromText "Unknown Sender") }])

/-- The legacy fetch loop over all found messages: accumulates the delete
list and the activity log, in message order. -/
def legacyProcessMessages (rtest : String → String → Bool)
    (senders : List TrustedSender) (fs : FilterState) (account_user : Nat)
    (accountId : Nat) :
    List (Nat × Option String × Option String × Option String × Option String) →
    List Nat × List ActivityLogEntry
  | [] => ([], [])
  | (seqno, subject, text, html, fromText) :: rest =>
      let one := legacyProcessMessage rtest senders fs account_user accountId
        seqno subject text html fromText
      let others := legacyProcessMessages rtest senders fs account_user accountId rest
      (one.1 ++ others.1, one.2 ++ others.2)

/-! ## Shared fixtures and helper lemmas -/

/-- A regex engine that matches nothing — used to instantiate the abstract
engine on concrete inputs whose classification never reaches a regex
layer. -/
def noRegex : String → String → Bool := fun _ _ => false

/-- A regex-compilation oracle that rejects every pattern. -/
def noCompile : String → Bool := fun _ => false

/-- The sender address the tick loop computes for a message. -/
def tickFromAddress (m : EmailMessage) : String := jsStrOr m.from_ "Unknown Sender"

theorem legacyProcessMessage_deletes (rtest : String → String → Bool)
    (senders : List TrustedSender) (fs : FilterState) (u a seqno : Nat)
    (subject text html fromText : Option String) :
    legacyProcessMessage rtest senders fs u a seqno subject text html fromText =
      ([seqno],
       [{ user_id := u, child_account_id := some a, activity_type := "deleted",
          details := "Deleted junk email with subject: " ++ jsStrOr subject "No Subject",
          sender_email := some (jsStrOr fromText "Unknown Sender") }]) := by
  simp [legacyProcessMessage, promiseFieldIsInappropriate, jsTruthy]

/-! ## C10 -/

/-- C10: in the legacy iCloud-only pipeline (`src/server/email-service.ts`),
`checkAndForward` uses the promise returned by `checkContent` without
awaiting it, so `filterResult.isInappropriate` is `undefined` (falsy) for
every message: the forward/`filter_match` branch is unreachable, and every
fetched junk message is queued for deletion and logged with activity type
`"deleted"`. -/
theorem legacy_unawaited_filter_deletes_every_message
    (rtest : String → String → Bool) (senders : List TrustedSender)
    (fs : FilterState) (u a : Nat)
    (msgs : List (Nat × Option String × Option String × Option String × Option String)) :
    (legacyProcessMessages rtest senders fs u a msgs).1 = msgs.map (fun m => m.1) ∧
    (∀ e ∈ (legacyProcessMessages rtest senders fs u a msgs).2,
      e.activity_type = "deleted") ∧
    (∀ e ∈ (legacyProcessMessages rtest senders fs u a msgs).2,
      ¬ e.activity_type = "filter_match") := by
  induction msgs with
  | nil => simp [legacyProcessMessages]
  | cons m rest ih =>
      obtain ⟨seqno, subject, text, html, fromText⟩ := m
      refine ⟨?_, ?_, ?_⟩
      · simp [legacyProcessMessages, legacyProcessMessage_deletes, ih.1]
      · intro e he
        simp only [legacyProcessMessages, legacyProcessMessage_deletes,
          List.mem_append] at he
        rcases he with he | he
        · simp only [List.mem_singleton] at he
          subst he
          rfl
        · exact ih.2.1 e he
      · intro e he
        simp only [legacyProcessMessages, legacyProcessMessage_deletes,
          List.mem_append] at he
        rcases he with he | he
        · simp only [List.mem_singleton] at he
          subst he
          simp
        · intro hc
          exact ih.2.2 e he hc

/-! ## C8 -/

/-- C8 (supporting theorem for a code bug): `generateStateParam` produces a
32-hex-character (16-byte) string, but it is a pure function of the
`Math.random()` byte stream — with the stream known (here: all zeros) the
state parameter is completely determined.  `Math.random` is not a
cryptographically secure generator, so the claim's unpredictability
requirement is not met by the code. -/
theorem generateStateParam_determined_by_math_random :
    generateStateParam (fun _ => 0) = "00000000000000000000000000000000" ∧
    (∀ r : Nat → Nat, (generateStateParam r).length = 32) := by
  constructor
  · decide
  · intro r
    have h2 : ∀ b : Nat, (byteToHex b).length = 2 := fun b => rfl
    simp [generateStateParam, String.join, show List.range 16 =
      [0,1,2,3,4,5,6,7,8,9,10,11,12,13,14,15] from rfl,
      String.length_append, h2]

/-! ## C6 -/

/-- C6 counterexample: a user-level (`child_account_id = NULL`) preference
record exists for user 1, yet resolving preferences for user 1 and account 5
returns nothing — the tick does not fall back to the user-level record. -/
theorem getJunkMailPreferences_no_userlevel_fallback :
    getJunkMailPreferences
      [{ user_id := 1, child_account_id := none, keep_newsletters := true,
         keep_receipts := true, keep_social_media := true, auto_delete_all := true }]
      1 (some 5) = none := by
  decide

/-- C6 amended: preference resolution does not merge scopes.  When an
account id is supplied, only a record scoped to exactly that account is
returned (so an account with only a user-level record resolves to no
preferences), and without an account id the first record of the user — of
any scope — is returned. -/
theorem getJunkMailPreferences_exact_scope_only :
    (∀ (l : List JunkMailPreferences) (u a : Nat) (p : JunkMailPreferences),
      getJunkMailPreferences l u (some a) = some p →
      p.user_id = u ∧ p.child_account_id = some a) ∧
    (∀ (l : List JunkMailPreferences) (u a : Nat),
      (∀ p ∈ l, p.child_account_id ≠ some a) →
      getJunkMailPreferences l u (some a) = none) ∧
    (∀ (l : List JunkMailPreferences) (u : Nat),
      getJunkMailPreferences l u none = l.find? (fun p => p.user_id == u)) := by
  refine ⟨?_, ?_, ?_⟩
  · intro l u a p hp
    have hmem := List.find?_some hp
    by_cases hu : p.user_id = u
    · simp only [hu, ne_eq, not_true_eq_false, if_false, ite_false] at hmem
      constructor
      · exact hu
      · simpa using hmem
    · simp [hu] at hmem
  · intro l u a h
    unfold getJunkMailPreferences
    rw [List.find?_eq_none]
    intro p hp
    by_cases hu : p.user_id = u
    · have := h p hp
      simp [hu, this]
    · simp [hu]
  · intro l u
    have hfun : (fun p : JunkMailPreferences =>
        if p.user_id ≠ u then false
        else match (none : Option Nat) with
          | none => true
          | some a => p.child_account_id == some a) =
        (fun p : JunkMailPreferences => p.user_id == u) := by
      funext p
      by_cases hu : p.user_id = u <;> simp [hu]
    simp only [getJunkMailPreferences, hfun]

/-- Witness for `getJunkMailPreferences_exact_scope_only`. -/
theorem getJunkMailPreferences_exact_scope_only_witness :
    ({ user_id := 2, child_account_id := some 7 } : JunkMailPreferences).user_id = 2 ∧
    getJunkMailPreferences
      [{ user_id := 1, child_account_id := none }] 1 (some 5) = none := by
  constructor
  · exact (getJunkMailPreferences_exact_scope_only.1
      [{ user_id := 2, child_account_id := some 7 }] 2 7
      { user_id := 2, child_account_id := some 7 } (by decide)).1
  · exact getJunkMailPreferences_exact_scope_only.2.1
      [{ user_id := 1, child_account_id := none }] 1 5 (by decide)

/-! ## C7 -/

/-- Fold characterization of `buildUserFilters`: starting from any
accumulator, the fold appends the lower-cased literal rules and exactly the
compiling regex patterns. -/
theorem buildUserFilters_foldl (rcompiles : String → Bool)
    (rules : List FilterRule) (acc : List String × List String) :
    rules.foldl
      (fun acc rule =>
        if rule.is_regex then
          if rcompiles rule.rule_text then (acc.1, acc.2 ++ [rule.rule_text])
          else acc
        else (acc.1 ++ [jsLower rule.rule_text], acc.2))
      acc =
    (acc.1 ++ ((rules.filter (fun r => !r.is_regex)).map (fun r => jsLower r.rule_text)),
     acc.2 ++ ((rules.filter (fun r => r.is_regex && rcompiles r.rule_text)).map
        (fun r => r.rule_text))) := by
  induction rules generalizing acc with
  | nil => simp
  | cons r rest ih =>
      by_cases hr : r.is_regex
      · by_cases hc : rcompiles r.rule_text
        · simp [hr, hc, ih, List.filter_cons]
        · simp [hr, hc, ih, List.filter_cons]
      · simp [hr, ih, List.filter_cons]

/-- C7 counterexample: registering an invalid regex rule with
`addCustomFilter` throws, but the rule has already been persisted to storage
by `createFilterRule` (which runs before the pattern is compiled) — so the
claim that the call fails with the rule taking no effect does not hold for
the storage side. -/
theorem addCustomFilter_invalid_regex_still_persisted :
    (addCustomFilter noCompile {} {} 1 "(" true).1 =
      Except.error "Invalid regex pattern: (" ∧
    (addCustomFilter noCompile {} {} 1 "(" true).2.1.filterRules =
      [{ user_id := 1, child_account_id := none, rule_text := "(", is_regex := true }] := by
  constructor
  · rfl
  · rfl

/-- C7 amended: for an invalid regex pattern, `addCustomFilter` throws and
leaves the in-memory filter maps untouched (so the pattern never affects
classification), but the rule record is persisted to storage *before* the
validation; and a non-compiling pattern present at load time is skipped
without aborting the processing of the remaining rules — the built per-user
filters are exactly the lower-cased literal rules plus the compiling regex
patterns, in order. -/
theorem addCustomFilter_invalid_regex_behaviour
    (rcompiles : String → Bool) (store : StorageState) (fs : FilterState)
    (u : Nat) (p : String) (hbad : rcompiles p = false) :
    (addCustomFilter rcompiles store fs u p true).1 =
      Except.error ("Invalid regex pattern: " ++ p) ∧
    (addCustomFilter rcompiles store fs u p true).2.1 =
      createFilterRule store { user_id := u, rule_text := p, is_regex := true } ∧
    (addCustomFilter rcompiles store fs u p true).2.2 = fs ∧
    (∀ rules : List FilterRule,
      buildUserFilters rcompiles rules =
        ((rules.filter (fun r => !r.is_regex)).map (fun r => jsLower r.rule_text),
         (rules.filter (fun r => r.is_regex && rcompiles r.rule_text)).map
           (fun r => r.rule_text))) := by
  refine ⟨?_, ?_, ?_, ?_⟩
  · simp [addCustomFilter, hbad]
  · simp [addCustomFilter, hbad]
  · simp [addCustomFilter, hbad]
  · intro rules
    have := buildUserFilters_foldl rcompiles rules ([], [])
    simpa [buildUserFilters] using this

/-- Witness for `addCustomFilter_invalid_regex_behaviour`. -/
theorem addCustomFilter_invalid_regex_behaviour_witness :
    (addCustomFilter noCompile {} {} 1 "(" true).2.2 = ({} : FilterState) :=
  (addCustomFilter_invalid_regex_behaviour noCompile {} {} 1 "(" rfl).2.2.1

/-! ## C5 -/

/-- C5: `checkContent` evaluates the layers in the spec's fixed order with
first-match short-circuiting — it coincides with `checkContentLayered`,
whose keyword/regex layers all read the lower-cased
`subject ++ " " ++ bodyText` and whose only HTML consumer is the
`alt`-attribute layer; and literal matching is case-insensitive: the rule
text `"casino"` flags `"This is a CASINO offer"` (whatever the regex engine
does). -/
theorem checkContent_layer_order_and_case_insensitivity :
    (∀ (rtest : String → String → Bool) (senders : List TrustedSender)
       (fs : FilterState) (subject textContent htmlContent : String)
       (userId : Option Nat) (senderEmail : Option String)
       (childAccountId : Option Nat),
      checkContent rtest senders fs subject textContent htmlContent userId
          senderEmail childAccountId =
        checkContentLayered rtest senders fs subject textContent htmlContent
          userId senderEmail childAccountId) ∧
    (∀ rtest : String → String → Bool,
      checkContent rtest [] {} "This is a CASINO offer" "" "" none none none =
        { isInappropriate := true, reason := "Contains blocked term: casino" }) := by
  constructor
  · intro rtest senders fs subject textContent htmlContent userId senderEmail childAccountId
    simp only [checkContent, checkContentLayered, trustedLayer, defaultKeywordLayer,
      defaultRegexLayer, customKeywordLayer, customRegexLayer, altTextLayer,
      List.findSome?_cons, List.findSome?_nil, id]
    cases userId with
    | none =>
        cases senderEmail with
        | none =>
            simp only []
            generalize defaultFilters.find?
              (fun f => jsIncludes (jsLower (subject ++ " " ++ textContent)) (jsLower f)) = o2
            cases o2 with
            | some f => rfl
            | none =>
                generalize defaultRegexFilters.find?
                  (fun p => rtest p (jsLower (subject ++ " " ++ textContent))) = o3
                cases o3 with
                | some p => rfl
                | none =>
                    cases hh : (htmlContent == "") with
                    | true => rfl
                    | false =>
                        generalize adultImageKeywords.find? (fun k =>
                          jsIncludes (jsLower htmlContent) ("alt=\"" ++ k ++ "\"") ||
                          jsIncludes (jsLower htmlContent) ("alt=" ++ sq ++ k ++ sq)) = o6
                        cases o6 with
                        | some k => rfl
                        | none => rfl
        | some se =>
            simp only []
            generalize defaultFilters.find?
              (fun f => jsIncludes (jsLower (subject ++ " " ++ textContent)) (jsLower f)) = o2
            cases o2 with
            | some f => rfl
            | none =>
                generalize defaultRegexFilters.find?
                  (fun p => rtest p (jsLower (subject ++ " " ++ textContent))) = o3
                cases o3 with
                | some p => rfl
                | none =>
                    cases hh : (htmlContent == "") with
                    | true => rfl
                    | false =>
                        generalize adultImageKeywords.find? (fun k =>
                          jsIncludes (jsLower htmlContent) ("alt=\"" ++ k ++ "\"") ||
                          jsIncludes (jsLower htmlContent) ("alt=" ++ sq ++ k ++ sq)) = o6
                        cases o6 with
                        | some k => rfl
                        | none => rfl
    | some uid =>
        cases senderEmail with
        | none =>
            simp only []
            generalize defaultFilters.find?
              (fun f => jsIncludes (jsLower (subject ++ " " ++ textContent)) (jsLower f)) = o2
            cases o2 with
            | some f => rfl
            | none =>
                generalize defaultRegexFilters.find?
                  (fun p => rtest p (jsLower (subject ++ " " ++ textContent))) = o3
                cases o3 with
                | some p => rfl
                | none =>
                    generalize (lookupOrNil fs.customFilters uid).find?
                      (fun f => jsIncludes (jsLower (subject ++ " " ++ textContent)) f) = o4
                    cases o4 with
                    | some f => rfl
                    | none =>
                        generalize (lookupOrNil fs.customRegexFilters uid).find?
                          (fun p => rtest p (jsLower (subject ++ " " ++ textContent))) = o5
                        cases o5 with
                        | some p => rfl
                        | none =>
                            cases hh : (htmlContent == "") with
                            | true => rfl
                            | false =>
                                generalize adultImageKeywords.find? (fun k =>
                                  jsIncludes (jsLower htmlContent) ("alt=\"" ++ k ++ "\"") ||
                                  jsIncludes (jsLower htmlContent) ("alt=" ++ sq ++ k ++ sq)) = o6
                                cases o6 with
                                | some k => rfl
                                | none => rfl
        | some se =>
            simp only []
            by_cases hc : (!(se == "") && isEmailTrusted senders se uid childAccountId) = true
            · simp only [if_pos hc]
              rfl
            · simp only [if_neg hc]
              generalize defaultFilters.find?
                (fun f => jsIncludes (jsLower (subject ++ " " ++ textContent)) (jsLower f)) = o2
              cases o2 with
              | some f => rfl
              | none =>
                  generalize defaultRegexFilters.find?
                    (fun p => rtest p (jsLower (subject ++ " " ++ textContent))) = o3
                  cases o3 with
                  | some p => rfl
                  | none =>
                      generalize (lookupOrNil fs.customFilters uid).find?
                        (fun f => jsIncludes (jsLower (subject ++ " " ++ textContent)) f) = o4
                      cases o4 with
                      | some f => rfl
                      | none =>
                          generalize (lookupOrNil fs.customRegexFilters uid).find?
                            (fun p => rtest p (jsLower (subject ++ " " ++ textContent))) = o5
                          cases o5 with
                          | some p => rfl
                          | none =>
                              cases hh : (htmlContent == "") with
                              | true => rfl
                              | false =>
                                  generalize adultImageKeywords.find? (fun k =>
                                    jsIncludes (jsLower htmlContent) ("alt=\"" ++ k ++ "\"") ||
                                    jsIncludes (jsLower htmlContent) ("alt=" ++ sq ++ k ++ sq)) = o6
                                  cases o6 with
                                  | some k => rfl
                                  | none => rfl
  · intro rtest
    rfl

/-! ## Tick-loop helper lemmas -/

/-- The activity-log entry the tick writes for a trusted sender. -/
def trustedSenderLog (u a : Nat) (m : EmailMessage) : ActivityLogEntry :=
  { user_id := u, child_account_id := some a, activity_type := "trusted_sender",
    details := "Kept email from trusted sender: " ++ tickFromAddress m,
    sender_email := some (tickFromAddress m) }

theorem processOneMessage_trusted (rtest : String → String → Bool)
    (senders : List TrustedSender) (fs : FilterState)
    (jp : Option JunkMailPreferences) (u a : Nat) (sendOk : Bool)
    (m : EmailMessage)
    (ht : isEmailTrusted senders (tickFromAddress m) u (some a) = true) :
    processOneMessage rtest senders fs jp u a sendOk m =
      { logs := [trustedSenderLog u a m] } := by
  unfold processOneMessage
  rw [if_pos (by simpa [tickFromAddress] using ht)]
  rfl

theorem mem_toDelete_processOneMessage (rtest : String → String → Bool)
    (senders : List TrustedSender) (fs : FilterState)
    (jp : Option JunkMailPreferences) (u a : Nat) (sendOk : Bool)
    (m : EmailMessage) (mid : String)
    (h : mid ∈ (processOneMessage rtest senders fs jp u a sendOk m).toDelete) :
    mid = m.id ∧ isEmailTrusted senders (tickFromAddress m) u (some a) = false := by
  unfold processOneMessage at h
  by_cases ht : isEmailTrusted senders (jsStrOr m.from_ "Unknown Sender") u (some a) = true
  · rw [if_pos ht] at h
    simp at h
  · rw [if_neg ht] at h
    refine ⟨?_, by simpa [tickFromAddress] using ht⟩
    simp only [] at h
    repeat' split at h
    all_goals simp at h
    all_goals exact h

theorem mem_markedRead_processOneMessage (rtest : String → String → Bool)
    (senders : List TrustedSender) (fs : FilterState)
    (jp : Option JunkMailPreferences) (u a : Nat) (sendOk : Bool)
    (m : EmailMessage) (mid : String)
    (h : mid ∈ (processOneMessage rtest senders fs jp u a sendOk m).markedRead) :
    mid = m.id ∧ isEmailTrusted senders (tickFromAddress m) u (some a) = false := by
  unfold processOneMessage at h
  by_cases ht : isEmailTrusted senders (jsStrOr m.from_ "Unknown Sender") u (some a) = true
  · rw [if_pos ht] at h
    simp at h
  · rw [if_neg ht] at h
    refine ⟨?_, by simpa [tickFromAddress] using ht⟩
    simp only [] at h
    repeat' split at h
    all_goals simp at h
    all_goals exact h

theorem mem_toDelete_processMessages (rtest : String → String → Bool)
    (senders : List TrustedSender) (fs : FilterState)
    (jp : Option JunkMailPreferences) (u a : Nat) (sendOk : Bool)
    (msgs : List EmailMessage) (mid : String)
    (h : mid ∈ (processMessages rtest senders fs jp u a sendOk msgs).toDelete) :
    ∃ m, m ∈ msgs ∧ mid = m.id ∧
      isEmailTrusted senders (tickFromAddress m) u (some a) = false := by
  induction msgs with
  | nil => simp [processMessages] at h
  | cons m rest ih =>
      simp only [processMessages, TickResult.append, List.mem_append] at h
      rcases h with h | h
      · exact ⟨m, List.mem_cons_self m rest,
          mem_toDelete_processOneMessage rtest senders fs jp u a sendOk m mid h⟩
      · obtain ⟨m', hm', hrest⟩ := ih h
        exact ⟨m', List.mem_cons_of_mem m hm', hrest⟩

theorem mem_markedRead_processMessages (rtest : String → String → Bool)
    (senders : List TrustedSender) (fs : FilterState)
    (jp : Option JunkMailPreferences) (u a : Nat) (sendOk : Bool)
    (msgs : List EmailMessage) (mid : String)
    (h : mid ∈ (processMessages rtest senders fs jp u a sendOk msgs).markedRead) :
    ∃ m, m ∈ msgs ∧ mid = m.id ∧
      isEmailTrusted senders (tickFromAddress m) u (some a) = false := by
  induction msgs with
  | nil => simp [processMessages] at h
  | cons m rest ih =>
      simp only [processMessages, TickResult.append, List.mem_append] at h
      rcases h with h | h
      · exact ⟨m, List.mem_cons_self m rest,
          mem_markedRead_processOneMessage rtest senders fs jp u a sendOk m mid h⟩
      · obtain ⟨m', hm', hrest⟩ := ih h
        exact ⟨m', List.mem_cons_of_mem m hm', hrest⟩

theorem trusted_log_mem_processMessages (rtest : String → String → Bool)
    (senders : List TrustedSender) (fs : FilterState)
    (jp : Option JunkMailPreferences) (u a : Nat) (sendOk : Bool)
    (msgs : List EmailMessage) (m : EmailMessage) (hm : m ∈ msgs)
    (ht : isEmailTrusted senders (tickFromAddress m) u (some a) = true) :
    trustedSenderLog u a m ∈ (processMessages rtest senders fs jp u a sendOk msgs).logs := by
  induction msgs with
  | nil => simp at hm
  | cons m0 rest ih =>
      simp only [processMessages, TickResult.append, List.mem_append]
      rcases List.mem_cons.mp hm with h | h
      · subst h
        left
        rw [processOneMessage_trusted rtest senders fs jp u a sendOk _ ht]
        simp
      · right
        exact ih h

/-! ## C1 -/

/-- A trusted-sender record with an empty address, constructible through
`createTrustedSender` (which performs no validation). -/
def emptyTrusted : TrustedSender :=
  { user_id := 1, child_account_id := none, email_address := "" }

/-- C1 counterexample: `isEmailTrusted` reports the (empty) sender `""` as
trusted for user 1, yet `checkContent` called with that user id and that
sender classifies a viagra subject as inappropriate — the guard
`userId !== undefined && senderEmail` treats the empty sender string as
falsy and skips the trusted-sender check. -/
theorem trusted_sender_claim_counterexample :
    isEmailTrusted [emptyTrusted] "" 1 none = true ∧
    (checkContent noRegex [emptyTrusted] {} "viagra" "" "" (some 1) (some "") none).isInappropriate
      = true := by
  decide

/-- C1 amended: for a *non-empty* `senderEmail` that `isEmailTrusted`
reports as trusted, `checkContent` returns not-inappropriate with the
trusted-sender reason regardless of subject, text and HTML; and during a
scan tick every id in the delete queue comes from a message whose computed
sender address is not trusted — a trusted-sender message is never queued for
deletion. -/
theorem trusted_sender_short_circuit :
    (∀ (rtest : String → String → Bool) (senders : List TrustedSender)
       (fs : FilterState) (subject textContent htmlContent : String)
       (uid : Nat) (se : String) (acc : Option Nat),
      se ≠ "" → isEmailTrusted senders se uid acc = true →
      checkContent rtest senders fs subject textContent htmlContent
          (some uid) (some se) acc =
        { isInappropriate := false, reason := "Sender is trusted" }) ∧
    (∀ (rtest : String → String → Bool) (senders : List TrustedSender)
       (fs : FilterState) (jp : Option JunkMailPreferences) (u a : Nat)
       (sendOk : Bool) (msgs : List EmailMessage) (mid : String),
      mid ∈ (processMessages rtest senders fs jp u a sendOk msgs).toDelete →
      ∃ m, m ∈ msgs ∧ mid = m.id ∧
        isEmailTrusted senders (tickFromAddress m) u (some a) = false) := by
  constructor
  · intro rtest senders fs subject textContent htmlContent uid se acc hse ht
    have hb : (se == "") = false := beq_eq_false_iff_ne.mpr hse
    simp [checkContent, hb, ht]
  · intro rtest senders fs jp u a sendOk msgs mid h
    exact mem_toDelete_processMessages rtest senders fs jp u a sendOk msgs mid h

/-- A trusted sender and a message from it, used as concrete witnesses. -/
def momTrusted : TrustedSender :=
  { user_id := 1, child_account_id := none, email_address := "mom@example.com" }

def momMsg : EmailMessage :=
  { id := "7", from_ := some "mom@example.com", subject := some "hello" }

def spamMsg : EmailMessage :=
  { id := "9", from_ := some "spam@example.com", subject := some "cheap viagra" }

/-- Witness for `trusted_sender_short_circuit`. -/
theorem trusted_sender_short_circuit_witness :
    checkContent noRegex [momTrusted] {} "cheap viagra" "" "" (some 1)
        (some "mom@example.com") none =
      { isInappropriate := false, reason := "Sender is trusted" } ∧
    (∃ m, m ∈ [spamMsg] ∧ "9" = m.id ∧
      isEmailTrusted [momTrusted] (tickFromAddress m) 1 (some 2) = false) := by
  constructor
  · exact trusted_sender_short_circuit.1 noRegex [momTrusted] {} "cheap viagra" "" ""
      1 "mom@example.com" none (by decide) (by decide)
  · exact trusted_sender_short_circuit.2 noRegex [momTrusted] {}
      (some { user_id := 1, child_account_id := some 2 }) 1 2 true [spamMsg] "9"
      (by decide)

/-! ## C2 -/

/-- C2 counterexample: a tick over a single message from a trusted sender
logs the `trusted_sender` entry and deletes nothing, but marks *nothing* as
read — the trusted branch of `checkAndForward` has no `markAsRead` call, so
the claim that the message is marked as read fails. -/
theorem trusted_message_not_marked_read :
    isEmailTrusted [momTrusted] (tickFromAddress momMsg) 1 (some 2) = true ∧
    (processMessages noRegex [momTrusted] {} none 1 2 true [momMsg]).markedRead = [] ∧
    (processMessages noRegex [momTrusted] {} none 1 2 true [momMsg]).toDelete = [] ∧
    (processMessages noRegex [momTrusted] {} none 1 2 true [momMsg]).logs =
      [trustedSenderLog 1 2 momMsg] := by
  decide

/-- C2 amended: during a scan tick, every message whose sender is trusted
produces a `"trusted_sender"` activity-log entry and processing continues
with the next message; the message is not deleted — but it is *not* marked
as read (every id marked read, like every id queued for deletion, comes from
a non-trusted message). -/
theorem trusted_sender_tick_behaviour :
    (∀ (rtest : String → String → Bool) (senders : List TrustedSender)
       (fs : FilterState) (jp : Option JunkMailPreferences) (u a : Nat)
       (sendOk : Bool) (msgs : List EmailMessage) (m : EmailMessage),
      m ∈ msgs → isEmailTrusted senders (tickFromAddress m) u (some a) = true →
      trustedSenderLog u a m ∈ (processMessages rtest senders fs jp u a sendOk msgs).logs) ∧
    (∀ (rtest : String → String → Bool) (senders : List TrustedSender)
       (fs : FilterState) (jp : Option JunkMailPreferences) (u a : Nat)
       (sendOk : Bool) (msgs : List EmailMessage) (mid : String),
      mid ∈ (processMessages rtest senders fs jp u a sendOk msgs).markedRead →
      ∃ m, m ∈ msgs ∧ mid = m.id ∧
        isEmailTrusted senders (tickFromAddress m) u (some a) = false) ∧
    (∀ (rtest : String → String → Bool) (senders : List TrustedSender)
       (fs : FilterState) (jp : Option JunkMailPreferences) (u a : Nat)
       (sendOk : Bool) (msgs : List EmailMessage) (m : EmailMessage),
      m ∈ msgs → isEmailTrusted senders (tickFromAddress m) u (some a) = true →
      processOneMessage rtest senders fs jp u a sendOk m =
        { logs := [trustedSenderLog u a m] }) := by
  refine ⟨?_, ?_, ?_⟩
  · intro rtest senders fs jp u a sendOk msgs m hm ht
    exact trusted_log_mem_processMessages rtest senders fs jp u a sendOk msgs m hm ht
  · intro rtest senders fs jp u a sendOk msgs mid h
    exact mem_markedRead_processMessages rtest senders fs jp u a sendOk msgs mid h
  · intro rtest senders fs jp u a sendOk msgs m hm ht
    exact processOneMessage_trusted rtest senders fs jp u a sendOk m ht

/-- Witness for `trusted_sender_tick_behaviour`. -/
theorem trusted_sender_tick_behaviour_witness :
    trustedSenderLog 1 2 momMsg ∈
      (processMessages noRegex [momTrusted] {} none 1 2 true [momMsg]).logs ∧
    processOneMessage noRegex [momTrusted] {} none 1 2 true momMsg =
      { logs := [trustedSenderLog 1 2 momMsg] } := by
  constructor
  · exact trusted_sender_tick_behaviour.1 noRegex [momTrusted] {} none 1 2 true
      [momMsg] momMsg (by decide) (by decide)
  · exact trusted_sender_tick_behaviour.2.2 noRegex [momTrusted] {} none 1 2 true
      [momMsg] momMsg (by decide) (by decide)

/-! ## Heap and pool helper lemmas -/

theorem heapGet_heapSet_same (heap : List (Nat × ProviderObj)) (ref : Nat)
    (obj obj' : ProviderObj) (h : heapGet heap ref = some obj) :
    heapGet (heapSet heap ref obj') ref = some obj' := by
  induction heap with
  | nil => simp [heapGet] at h
  | cons p rest ih =>
      obtain ⟨k, v⟩ := p
      by_cases hk : k = ref
      · subst hk
        simp [heapGet, heapSet, List.lookup]
      · have hb : (ref == k) = false := beq_eq_false_iff_ne.mpr (Ne.symm hk)
        simp only [heapGet, List.lookup, hb] at h
        simp only [heapGet, heapSet, List.map_cons, List.lookup, hb]
        simpa [heapGet, heapSet] using ih h

/-! ## C3 -/

/-- A pool state at the end of a tick: account 1 holds a connected session
(provider instance 0). -/
def tickPoolState : ManagerState :=
  { heap := [(0, { cls := "ICloudProvider", connectionState := true })],
    nextRef := 1,
    factoryCache := [(ProviderType.icloud, 0)],
    pool := [{ providerRef := 0, accountId := 1, providerType := ProviderType.icloud,
               lastUsed := 100, isConnected := true }] }

/-- C3 counterexample: after a tick completes normally, `checkAndForward`
runs `await provider.disconnect()` — the session object *is* disconnected
(its connection state becomes false), contradicting the claim that the
session is released back to the pool without being disconnected.  The pool
entry does remain present and still marked connected. -/
theorem tick_end_disconnects_counterexample :
    heapGet (tickEndDisconnect tickPoolState 0).heap 0 =
      some { cls := "ICloudProvider", connectionState := false } ∧
    poolLookup (tickEndDisconnect tickPoolState 0).pool 1 =
      some { providerRef := 0, accountId := 1, providerType := ProviderType.icloud,
             lastUsed := 100, isConnected := true } := by
  decide

/-- C3 amended: a normal tick ends with `provider.disconnect()`, so the
underlying session is disconnected; but the pool entry for the account
remains present and still marked connected (the manager is never told), so
the next tick's `getProviderForAccount` hands back the same — now
disconnected — provider instance without any new connect attempt. -/
theorem tick_end_disconnect_stale_pool_entry
    (settingsMap : List (ProviderType × EmailProviderSettings))
    (st : ManagerState) (acct : ChildAccount) (now : Nat) (ok : Bool)
    (e : PoolEntry) (obj : ProviderObj)
    (hpool : poolLookup st.pool acct.id = some e)
    (hconn : e.isConnected = true)
    (hheap : heapGet st.heap e.providerRef = some obj) :
    heapGet (tickEndDisconnect st e.providerRef).heap e.providerRef =
      some { obj with connectionState := false } ∧
    poolLookup (tickEndDisconnect st e.providerRef).pool acct.id = some e ∧
    (getProviderForAccount settingsMap (tickEndDisconnect st e.providerRef) acct now ok).1 =
      some e.providerRef ∧
    (getProviderForAccount settingsMap (tickEndDisconnect st e.providerRef) acct now ok).2.2 =
      false := by
  have hpool' : (tickEndDisconnect st e.providerRef).pool = st.pool := by
    simp [tickEndDisconnect, hheap]
  have h1 : heapGet (tickEndDisconnect st e.providerRef).heap e.providerRef =
      some { obj with connectionState := false } := by
    simp only [tickEndDisconnect, hheap]
    exact heapGet_heapSet_same st.heap e.providerRef obj _ hheap
  refine ⟨h1, by rw [hpool']; exact hpool, ?_, ?_⟩
  · simp [getProviderForAccount, hpool', hpool, hconn]
  · simp [getProviderForAccount, hpool', hpool, hconn]

/-- Witness for `tick_end_disconnect_stale_pool_entry`. -/
theorem tick_end_disconnect_stale_pool_entry_witness :
    heapGet (tickEndDisconnect tickPoolState 0).heap 0 =
      some { cls := "ICloudProvider", connectionState := false, connectionOptions := none } ∧
    (getProviderForAccount [] (tickEndDisconnect tickPoolState 0)
        { id := 1, user_id := 1, email := "kid@example.com", auth_method := "password" }
        200 true).2.2 = false := by
  have h := tick_end_disconnect_stale_pool_entry []
    tickPoolState
    { id := 1, user_id := 1, email := "kid@example.com", auth_method := "password" }
    200 true
    { providerRef := 0, accountId := 1, providerType := ProviderType.icloud,
      lastUsed := 100, isConnected := true }
    { cls := "ICloudProvider", connectionState := true }
    (by decide) (by decide) (by decide)
  exact ⟨h.1, h.2.2.2⟩

/-! ## C9 -/

theorem cacheLookup_append_of_none (l : List (ProviderType × Nat)) (t : ProviderType)
    (r : Nat) (h : l.lookup t = none) : (l ++ [(t, r)]).lookup t = some r := by
  induction l with
  | nil => simp [List.lookup]
  | cons p rest ih =>
      obtain ⟨k, v⟩ := p
      by_cases hk : t = k
      · subst hk
        simp [List.lookup] at h
      · have hb : (t == k) = false := beq_eq_false_iff_ne.mpr hk
        simp only [List.lookup, hb] at h
        simp only [List.cons_append, List.lookup, hb]
        exact ih h

/-- C9: the provider factory keeps at most one instance per provider type —
a second `getProvider` call for the same type returns the cached instance
and leaves the state unchanged; consequently, pool entries created for two
different accounts of the same provider type reference the *same* provider
instance, and connecting the second account's session overwrites the
connection state and stored options that the first account's pool entry
sees. -/
theorem provider_factory_single_instance_aliasing :
    (∀ (st : ManagerState) (t : ProviderType),
      getProvider (getProvider st t).2 t = ((getProvider st t).1, (getProvider st t).2)) ∧
    (∀ (settingsMap : List (ProviderType × EmailProviderSettings))
       (A B : ChildAccount) (t : ProviderType) (s : EmailProviderSettings)
       (now : Nat) (ok1 ok2 : Bool) (optsA optsB : ConnectionOptions),
      A.provider = some t → B.provider = some t → ¬(A.id = B.id) →
      settingsMap.lookup t = some s →
      buildConnectionOptions s A now = some optsA →
      buildConnectionOptions s B now = some optsB →
      ∃ ref,
        (poolLookup ((createNewConnection settingsMap
            ((createNewConnection settingsMap {} A now ok1).2) B now ok2).2.pool) A.id).map
          (fun e => e.providerRef) = some ref ∧
        (poolLookup ((createNewConnection settingsMap
            ((createNewConnection settingsMap {} A now ok1).2) B now ok2).2.pool) B.id).map
          (fun e => e.providerRef) = some ref ∧
        heapGet ((createNewConnection settingsMap
            ((createNewConnection settingsMap {} A now ok1).2) B now ok2).2.heap) ref =
          some { cls := providerClassFor t, connectionState := ok2,
                 connectionOptions := some optsB }) := by
  constructor
  · intro st t
    cases hc : st.factoryCache.lookup t with
    | some ref => simp [getProvider, hc]
    | none =>
        simp [getProvider, hc,
          cacheLookup_append_of_none st.factoryCache t st.nextRef hc]
  · intro settingsMap A B t s now ok1 ok2 optsA optsB hA hB hne hs hbA hbB
    have hne' : (A.id == B.id) = false := beq_eq_false_iff_ne.mpr hne
    refine ⟨0, ?_, ?_, ?_⟩ <;>
      cases ok1 <;> cases ok2 <;>
        simp [createNewConnection, getProvider, connectProvider,
          cleanupIdleConnections, disconnectLeastRecentlyUsed, lruScan,
          heapGet, heapSet, poolLookup, poolSet, maxPoolSize, idleTimeout,
          hA, hB, hs, hbA, hbB, hne', List.lookup]

/-- Concrete fixtures: two gmail accounts sharing one provider type. -/
def gmailSettings : EmailProviderSettings :=
  { provider_type := ProviderType.gmail, imap_host := "imap.gmail.com",
    imap_port := 993, imap_secure := true }

def acctA : ChildAccount :=
  { id := 1, user_id := 1, email := "a@gmail.com",
    provider := some ProviderType.gmail, auth_method := "password",
    password := some "pw1" }

def acctB : ChildAccount :=
  { id := 2, user_id := 1, email := "b@gmail.com",
    provider := some ProviderType.gmail, auth_method := "password",
    password := some "pw2" }

/-- Witness for `provider_factory_single_instance_aliasing`. -/
theorem provider_factory_single_instance_aliasing_witness :
    ∃ ref,
      (poolLookup ((createNewConnection [(ProviderType.gmail, gmailSettings)]
          ((createNewConnection [(ProviderType.gmail, gmailSettings)] {} acctA 500 true).2)
          acctB 500 true).2.pool) acctA.id).map (fun e => e.providerRef) = some ref ∧
      (poolLookup ((createNewConnection [(ProviderType.gmail, gmailSettings)]
          ((createNewConnection [(ProviderType.gmail, gmailSettings)] {} acctA 500 true).2)
          acctB 500 true).2.pool) acctB.id).map (fun e => e.providerRef) = some ref ∧
      heapGet ((createNewConnection [(ProviderType.gmail, gmailSettings)]
          ((createNewConnection [(ProviderType.gmail, gmailSettings)] {} acctA 500 true).2)
          acctB 500 true).2.heap) ref =
        some { cls := providerClassFor ProviderType.gmail, connectionState := true,
               connectionOptions := some
                 { host := "imap.gmail.com", port := 993, secure := true,
                   user := "b@gmail.com",
                   auth := { type := "password", value := "pw2" } } } :=
  provider_factory_single_instance_aliasing.2 [(ProviderType.gmail, gmailSettings)]
    acctA acctB ProviderType.gmail gmailSettings 500 true true
    { host := "imap.gmail.com", port := 993, secure := true, user := "a@gmail.com",
      auth := { type := "password", value := "pw1" } }
    { host := "imap.gmail.com", port := 993, secure := true, user := "b@gmail.com",
      auth := { type := "password", value := "pw2" } }
    (by decide) (by decide) (by decide) (by decide) (by decide) (by decide)

/-! ## C4 — pool-bound lemmas -/

theorem disconnectProvider_pool_subset (st : ManagerState) (i : Nat) :
    ∀ e ∈ (disconnectProvider st i).pool, e ∈ st.pool := by
  intro e he
  unfold disconnectProvider at he
  cases h : poolLookup st.pool i with
  | none => rw [h] at he; exact he
  | some e0 =>
      rw [h] at he
      exact List.mem_of_mem_filter he

theorem disconnectProvider_pool_length_le (st : ManagerState) (i : Nat) :
    (disconnectProvider st i).pool.length ≤ st.pool.length := by
  unfold disconnectProvider
  cases h : poolLookup st.pool i with
  | none => exact le_refl _
  | some e0 => exact List.length_filter_le _ _

theorem disconnectProvider_pool_length_lt (st : ManagerState) (i : Nat)
    (h : ∃ e ∈ st.pool, e.accountId = i) :
    (disconnectProvider st i).pool.length < st.pool.length := by
  obtain ⟨e0, he0, hid⟩ := h
  have hsome : (poolLookup st.pool i).isSome :=
    List.find?_isSome.mpr ⟨e0, he0, by simp [hid]⟩
  obtain ⟨efound, hf⟩ := Option.isSome_iff_exists.mp hsome
  unfold disconnectProvider
  rw [hf]
  exact List.length_filter_lt_length_iff_exists.mpr ⟨e0, he0, by simp [hid]⟩

theorem foldl_disconnect_subset (ids : List Nat) (st : ManagerState) :
    ∀ e ∈ (ids.foldl (fun s i => disconnectProvider s i) st).pool, e ∈ st.pool := by
  induction ids generalizing st with
  | nil => intro e he; simpa using he
  | cons i rest ih =>
      intro e he
      simp only [List.foldl_cons] at he
      exact disconnectProvider_pool_subset st i e (ih (disconnectProvider st i) e he)

theorem foldl_disconnect_length_le (ids : List Nat) (st : ManagerState) :
    (ids.foldl (fun s i => disconnectProvider s i) st).pool.length ≤ st.pool.length := by
  induction ids generalizing st with
  | nil => simp
  | cons i rest ih =>
      simp only [List.foldl_cons]
      exact le_trans (ih (disconnectProvider st i)) (disconnectProvider_pool_length_le st i)

theorem cleanupIdleConnections_subset (st : ManagerState) (now : Nat) :
    ∀ e ∈ (cleanupIdleConnections st now).pool, e ∈ st.pool := by
  unfold cleanupIdleConnections
  exact foldl_disconnect_subset _ st

theorem cleanupIdleConnections_length_le (st : ManagerState) (now : Nat) :
    (cleanupIdleConnections st now).pool.length ≤ st.pool.length := by
  unfold cleanupIdleConnections
  exact foldl_disconnect_length_le _ st

theorem lruScan_result (l : List PoolEntry) :
    ∀ acc : Option Nat × Nat, lruScan l acc = acc ∨
      ∃ e ∈ l, lruScan l acc = (some e.accountId, e.lastUsed) := by
  induction l with
  | nil => intro acc; left; rfl
  | cons e rest ih =>
      intro acc
      by_cases h : e.lastUsed < acc.2
      · rcases ih (some e.accountId, e.lastUsed) with h1 | ⟨e2, he2, h1⟩
        · right
          exact ⟨e, List.mem_cons_self e rest, by simp [lruScan, h, h1]⟩
        · right
          exact ⟨e2, List.mem_cons_of_mem e he2, by simp [lruScan, h, h1]⟩
      · rcases ih acc with h1 | ⟨e2, he2, h1⟩
        · left
          simp [lruScan, h, h1]
        · right
          exact ⟨e2, List.mem_cons_of_mem e he2, by simp [lruScan, h, h1]⟩

theorem lruScan_snd_le (l : List PoolEntry) :
    ∀ acc : Option Nat × Nat, (lruScan l acc).2 ≤ acc.2 := by
  induction l with
  | nil => intro acc; simp [lruScan]
  | cons e rest ih =>
      intro acc
      by_cases h : e.lastUsed < acc.2
      · calc (lruScan (e :: rest) acc).2
            = (lruScan rest (some e.accountId, e.lastUsed)).2 := by simp [lruScan, h]
          _ ≤ e.lastUsed := ih _
          _ ≤ acc.2 := le_of_lt h
      · simp only [lruScan, if_neg h]
        exact ih acc

theorem lruScan_le_mem (l : List PoolEntry) :
    ∀ (acc : Option Nat × Nat) (e : PoolEntry), e ∈ l → (lruScan l acc).2 ≤ e.lastUsed := by
  induction l with
  | nil => intro acc e he; simp at he
  | cons e0 rest ih =>
      intro acc e he
      rcases List.mem_cons.mp he with h | h
      · subst h
        by_cases hlt : e.lastUsed < acc.2
        · have := lruScan_snd_le rest (some e.accountId, e.lastUsed)
          simpa [lruScan, hlt] using this
        · have h1 : (lruScan (e :: rest) acc).2 ≤ acc.2 := lruScan_snd_le _ acc
          exact le_trans h1 (Nat.le_of_not_lt hlt)
      · by_cases hlt : e0.lastUsed < acc.2
        · have := ih (some e0.accountId, e0.lastUsed) e h
          simpa [lruScan, hlt] using this
        · have := ih acc e h
          simpa [lruScan, hlt] using this

theorem lruScan_found (l : List PoolEntry) :
    ∀ acc : Option Nat × Nat, (∃ e ∈ l, e.lastUsed < acc.2) →
      ∃ e ∈ l, lruScan l acc = (some e.accountId, e.lastUsed) := by
  induction l with
  | nil => intro acc h; simp at h
  | cons e0 rest ih =>
      intro acc h
      obtain ⟨e, he, hlt⟩ := h
      by_cases h0 : e0.lastUsed < acc.2
      · rcases lruScan_result rest (some e0.accountId, e0.lastUsed) with h1 | ⟨e2, he2, h1⟩
        · exact ⟨e0, List.mem_cons_self e0 rest, by simp [lruScan, h0, h1]⟩
        · exact ⟨e2, List.mem_cons_of_mem e0 he2, by simp [lruScan, h0, h1]⟩
      · rcases List.mem_cons.mp he with heq | hin
        · subst heq
          exact absurd hlt h0
        · obtain ⟨e2, he2, h1⟩ := ih acc ⟨e, hin, hlt⟩
          exact ⟨e2, List.mem_cons_of_mem e0 he2, by simp [lruScan, h0, h1]⟩

theorem disconnectLeastRecentlyUsed_subset (st : ManagerState) (now : Nat) :
    ∀ e ∈ (disconnectLeastRecentlyUsed st now).pool, e ∈ st.pool := by
  intro e he
  unfold disconnectLeastRecentlyUsed at he
  cases h : (lruScan st.pool (none, now)).1 with
  | none => rw [h] at he; exact he
  | some i =>
      rw [h] at he
      exact disconnectProvider_pool_subset st i e he

theorem disconnectLeastRecentlyUsed_lru (st : ManagerState) (now : Nat)
    (hne : st.pool ≠ []) (hall : ∀ e ∈ st.pool, e.lastUsed < now) :
    ∃ e ∈ st.pool, (∀ e2 ∈ st.pool, e.lastUsed ≤ e2.lastUsed) ∧
      disconnectLeastRecentlyUsed st now = disconnectProvider st e.accountId := by
  obtain ⟨e0, he0⟩ := List.exists_mem_of_ne_nil st.pool hne
  obtain ⟨e, he, hscan⟩ := lruScan_found st.pool (none, now) ⟨e0, he0, hall e0 he0⟩
  refine ⟨e, he, ?_, ?_⟩
  · intro e2 he2
    have h1 := lruScan_le_mem st.pool (none, now) e2 he2
    rw [hscan] at h1
    exact h1
  · unfold disconnectLeastRecentlyUsed
    rw [hscan]

theorem disconnectLeastRecentlyUsed_length_lt (st : ManagerState) (now : Nat)
    (hne : st.pool ≠ []) (hall : ∀ e ∈ st.pool, e.lastUsed < now) :
    (disconnectLeastRecentlyUsed st now).pool.length < st.pool.length := by
  obtain ⟨e, he, _, heq⟩ := disconnectLeastRecentlyUsed_lru st now hne hall
  rw [heq]
  exact disconnectProvider_pool_length_lt st e.accountId ⟨e, he, rfl⟩

theorem getProvider_pool (st : ManagerState) (t : ProviderType) :
    (getProvider st t).2.pool = st.pool := by
  cases h : st.factoryCache.lookup t <;> simp [getProvider, h]

theorem connectProvider_pool (settingsMap : List (ProviderType × EmailProviderSettings))
    (account : ChildAccount) (now : Nat) (ok : Bool) (st : ManagerState) (ref : Nat) :
    (connectProvider settingsMap account now ok st ref).2.pool = st.pool := by
  unfold connectProvider
  simp only []
  cases h1 : settingsMap.lookup (account.provider.getD ProviderType.icloud) with
  | none => simp [h1]
  | some s =>
      cases h2 : buildConnectionOptions s account now with
      | none => simp [h1, h2]
      | some opts =>
          cases h3 : heapGet st.heap ref with
          | none => simp [h1, h2, h3]
          | some obj => simp [h1, h2, h3]

theorem poolSet_of_lookup_none (pool : List PoolEntry) (e : PoolEntry)
    (h : poolLookup pool e.accountId = none) : poolSet pool e = pool ++ [e] := by
  simp [poolSet, h]

theorem poolLookup_none_of_subset (p1 p2 : List PoolEntry) (a : Nat)
    (hsub : ∀ e ∈ p1, e ∈ p2) (h : poolLookup p2 a = none) :
    poolLookup p1 a = none := by
  unfold poolLookup at h ⊢
  rw [List.find?_eq_none] at h ⊢
  intro e he
  exact h e (hsub e he)

/-- The iCloud provider settings used by the pool-bound fixtures. -/
def icloudSettings : List (ProviderType × EmailProviderSettings) :=
  [(ProviderType.icloud,
    { provider_type := ProviderType.icloud, imap_host := "imap.mail.me.com",
      imap_port := 993, imap_secure := true })]

/-- The `i`-th of 21 distinct accounts inserted in the same millisecond. -/
def burstAccount (i : Nat) : ChildAccount :=
  { id := i + 1, user_id := 1, email := "kid@icloud.com",
    provider := some ProviderType.icloud, auth_method := "password",
    password := some "pw" }

/-- The pool after 21 successful `createNewConnection` calls for 21 distinct
accounts, all at timestamp 1000. -/
def burstPool : ManagerState :=
  (List.range 21).foldl
    (fun s i => (createNewConnection icloudSettings s (burstAccount i) 1000 true).2) {}

set_option maxRecDepth 4000 in
/-- C4 counterexample: when every pool entry was last used at the very
timestamp of the new request (21 inserts in the same millisecond), idle
eviction removes nothing (idle time 0) and `disconnectLeastRecentlyUsed`
finds no entry with `lastUsed` *strictly* below `Date.now()`, so nothing is
evicted and the pool grows to 21 live (connected) entries — above the
configured maximum of 20. -/
theorem pool_bound_counterexample :
    burstPool.pool.length = 21 ∧
    (burstPool.pool.filter (fun e => e.isConnected)).length = 21 ∧
    maxPoolSize = 20 := by
  refine ⟨by decide, by decide, rfl⟩

/-- C4 amended: provided every pool entry's last-used timestamp is strictly
earlier than the current time, a `createNewConnection` request for an
account with no pool entry keeps the pool (and hence its connected entries)
within the configured maximum: idle entries are evicted first and, if still
at capacity, the entry with the oldest last-used timestamp is disconnected
and removed before the new entry is inserted — and that forced eviction
always removes an entry whose `lastUsed` is minimal in the pool.  (When some
entry's `lastUsed` equals the current instant the strict comparison in
`disconnectLeastRecentlyUsed` can evict nothing and the bound fails, as the
counterexample shows.) -/
theorem connection_pool_bounded :
    (∀ (settingsMap : List (ProviderType × EmailProviderSettings))
       (st : ManagerState) (acct : ChildAccount) (now : Nat) (ok : Bool),
      poolLookup st.pool acct.id = none →
      st.pool.length ≤ maxPoolSize →
      (∀ e ∈ st.pool, e.lastUsed < now) →
      (createNewConnection settingsMap st acct now ok).2.pool.length ≤ maxPoolSize ∧
      ((createNewConnection settingsMap st acct now ok).2.pool.filter
        (fun e => e.isConnected)).length ≤ maxPoolSize) ∧
    (∀ (st : ManagerState) (now : Nat), st.pool ≠ [] →
      (∀ e ∈ st.pool, e.lastUsed < now) →
      ∃ e ∈ st.pool, (∀ e2 ∈ st.pool, e.lastUsed ≤ e2.lastUsed) ∧
        disconnectLeastRecentlyUsed st now = disconnectProvider st e.accountId) := by
  constructor
  · intro settingsMap st acct now ok hnone hlen hall
    have hmax : maxPoolSize = 20 := rfl
    unfold createNewConnection
    simp only []
    set stA := if maxPoolSize ≤ st.pool.length then cleanupIdleConnections st now else st
      with hA
    set stB := if maxPoolSize ≤ stA.pool.length then disconnectLeastRecentlyUsed stA now
      else stA with hB
    set pt := acct.provider.getD ProviderType.icloud with hpt
    set gp := getProvider stB pt with hgp
    set cp := connectProvider settingsMap acct now ok gp.2 gp.1 with hcp
    have hsubA : ∀ e ∈ stA.pool, e ∈ st.pool := by
      rw [hA]
      split
      · exact cleanupIdleConnections_subset st now
      · intro e he; exact he
    have hlenA : stA.pool.length ≤ st.pool.length := by
      rw [hA]
      split
      · exact cleanupIdleConnections_length_le st now
      · exact le_refl _
    have hsubB : ∀ e ∈ stB.pool, e ∈ stA.pool := by
      rw [hB]
      split
      · exact disconnectLeastRecentlyUsed_subset stA now
      · intro e he; exact he
    have hsubBA : ∀ e ∈ stB.pool, e ∈ st.pool := fun e he => hsubA e (hsubB e he)
    have hnoneB : poolLookup stB.pool acct.id = none :=
      poolLookup_none_of_subset stB.pool st.pool acct.id hsubBA hnone
    have hlenB : stB.pool.length + 1 ≤ maxPoolSize := by
      rw [hB]
      by_cases hcap : maxPoolSize ≤ stA.pool.length
      · rw [if_pos hcap]
        have hAne : stA.pool ≠ [] := by
          intro h0
          rw [h0] at hcap
          simp [maxPoolSize] at hcap
        have hallA : ∀ e ∈ stA.pool, e.lastUsed < now := fun e he => hall e (hsubA e he)
        have hlt := disconnectLeastRecentlyUsed_length_lt stA now hAne hallA
        have hle : stA.pool.length ≤ maxPoolSize := le_trans hlenA hlen
        omega
      · rw [if_neg hcap]
        omega
    have hpoolB : cp.2.pool = stB.pool := by
      rw [hcp, connectProvider_pool, hgp, getProvider_pool]
    by_cases hc : cp.1 = true
    · rw [if_pos hc]
      simp only []
      rw [hpoolB, poolSet_of_lookup_none _ _ (by simpa using hnoneB)]
      constructor
      · simp only [List.length_append, List.length_singleton]
        omega
      · refine le_trans (List.length_filter_le _ _) ?_
        simp only [List.length_append, List.length_singleton]
        omega
    · rw [if_neg hc]
      simp only []
      rw [hpoolB, poolSet_of_lookup_none _ _ (by simpa using hnoneB)]
      constructor
      · simp only [List.length_append, List.length_singleton]
        omega
      · refine le_trans (List.length_filter_le _ _) ?_
        simp only [List.length_append, List.length_singleton]
        omega
  · intro st now hne hall
    exact disconnectLeastRecentlyUsed_lru st now hne hall

/-- Witness for `connection_pool_bounded`. -/
theorem connection_pool_bounded_witness :
    ((createNewConnection icloudSettings tickPoolState
        (burstAccount 7) 200 true).2.pool.length ≤ maxPoolSize ∧
      ((createNewConnection icloudSettings tickPoolState
        (burstAccount 7) 200 true).2.pool.filter
          (fun e => e.isConnected)).length ≤ maxPoolSize) ∧
    (∃ e ∈ tickPoolState.pool, (∀ e2 ∈ tickPoolState.pool, e.lastUsed ≤ e2.lastUsed) ∧
      disconnectLeastRecentlyUsed tickPoolState 200 =
        disconnectProvider tickPoolState e.accountId) := by
  constructor
  · exact connection_pool_bounded.1 icloudSettings tickPoolState (burstAccount 7) 200 true
      (by decide) (by decide) (by decide)
  · exact connection_pool_bounded.2 tickPoolState 200 (by decide) (by decide)

end KidMail
